import Mathlib

/-!
Verification of `PortScanner.go` from elchemista/port-scanner.

The Go source is shallowly embedded: network effects (dialing, resolving,
predictor probes, reads) are modelled by an oracle structure `Network`
supplied by the environment, and each effectful function additionally
returns the list of network events it performed, so that "performs no
network I/O" is expressible as an empty trace.  Predictor instances are
modelled by their reference identity (a natural number), matching Go's
interface-value comparison `p == predictor`, with each instance's
`Predict` behaviour looked up in the oracle.  The concurrent scan loop of
`GetOpenedPorts` is modelled by a small-step transition relation with an
explicit semaphore counter, mirroring the buffered channel of capacity
`threads`.
-/

namespace PortScannerGo

open List

/-- The unknown sentinel: `const UNKNOWN = "<unknown>"`. -/
def UNKNOWN : String := "<unknown>"

/-- The `PortScanner` struct.  `predictors` holds reference identities of
predictor instances; `timeout` is a `time.Duration` (int64 nanoseconds);
`threads` is a Go `int`. -/
structure PortScanner where
  host : String
  predictors : List Nat
  timeout : Int
  threads : Int
  usePredictor : Bool
deriving Repr, DecidableEq

/-- Reference identity of the `&webserver.ApachePredictor{}` allocated in
`NewPortScanner`. -/
def apacheRef : Nat := 0

/-- Reference identity of the `&webserver.NginxPredictor{}` allocated in
`NewPortScanner`. -/
def nginxRef : Nat := 1

/-- Constructor `NewPortScanner`: stores the arguments unchanged and
installs the two default web-server predictors, with `usePredictor`
initially `true`. -/
def NewPortScanner (host : String) (timeout : Int) (threads : Int) : PortScanner :=
  { host := host
    predictors := [apacheRef, nginxRef]
    timeout := timeout
    threads := threads
    usePredictor := true }

/-- Setter `TogglePredictor`. -/
def TogglePredictor (ps : PortScanner) (usePredictor : Bool) : PortScanner :=
  { ps with usePredictor := usePredictor }

/-- Setter `SetThreads`: stores the argument with no validation. -/
def SetThreads (ps : PortScanner) (threads : Int) : PortScanner :=
  { ps with threads := threads }

/-- Setter `SetTimeout`. -/
def SetTimeout (ps : PortScanner) (timeout : Int) : PortScanner :=
  { ps with timeout := timeout }

/-- Registration `RegisterPredictor`: the Go loop returns early when some existing entry
equals (by interface/reference equality) the argument, otherwise appends. -/
def RegisterPredictor (ps : PortScanner) (predictor : Nat) : PortScanner :=
  if predictor ∈ ps.predictors then ps
  else { ps with predictors := ps.predictors ++ [predictor] }

/-- Address formatting `hostPort`: `fmt.Sprintf("%s:%d", ps.host, port)`. -/
def PortScanner.hostPort (ps : PortScanner) (port : Int) : String :=
  ps.host ++ ":" ++ toString port

/-- The `KNOWN_PORTS` map, entries verbatim from the source. -/
def KNOWN_PORTS : List (Int × String) :=
  [ (21, "FTP")
  , (22, "SSH")
  , (23, "Telnet")
  , (25, "SMTP")
  , (53, "DNS")
  , (66, "Oracle SQL*NET?")
  , (69, "TFTP")
  , (80, "HTTP")
  , (88, "Kerberos")
  , (109, "POP2")
  , (110, "POP3")
  , (118, "SQL Service?")
  , (123, "NTP")
  , (137, "NetBIOS")
  , (139, "NetBIOS")
  , (143, "IMAP")
  , (150, "SQL-Net?")
  , (194, "IRC")
  , (443, "HTTPS")
  , (445, "Samba")
  , (465, "SMTP over SSL")
  , (554, "RTSP")
  , (5800, "VNC Remote Desktop")
  , (631, "CUPS")
  , (993, "IMAP over SSL")
  , (995, "POP3 over SSL")
  , (1433, "Microsoft SQL Server")
  , (1434, "Microsoft SQL Monitor")
  , (3306, "MySQL")
  , (3389, "Remote Desktop Protocol (RDP)")
  , (3396, "Novell NDPS Printer Agent")
  , (3535, "SMTP (Alternate)")
  , (5432, "PostgreSQL")
  , (6379, "Redis")
  , (8080, "HTTP Alternate")
  , (9160, "Cassandra")
  , (9200, "Elasticsearch")
  , (11211, "Memcached")
  , (27017, "MongoDB")
  , (28017, "MongoDB Web Admin") ]

/-- Lookup `predictPort`: map lookup, `UNKNOWN` when the key is absent.  A pure
function of the port alone (the Go receiver is unused). -/
def predictPort (port : Int) : String :=
  match KNOWN_PORTS.lookup port with
  | some desc => desc
  | none => UNKNOWN

/-- Predicate `IsHttp`: `port == 80 || port == 8080` (the Go receiver is unused). -/
def IsHttp (port : Int) : Bool :=
  port == 80 || port == 8080

/-- A network I/O event performed by the scanner. -/
inductive NetEvent where
  /-- Event of `net.DialTimeout("tcp", address, timeout)` on this address. -/
  | dial (address : String)
  /-- Event of `net.ResolveTCPAddr("tcp4", host)`. -/
  | resolve (host : String)
  /-- Event of `predictor.Predict(host)` by the predictor with this reference. -/
  | predictorProbe (ref : Nat) (host : String)
  /-- Event of `conn.SetDeadline(time.Now().Add(seconds * time.Second))`. -/
  | setDeadline (seconds : Nat)
  /-- Event of `conn.Read` into a buffer of `bufLen` bytes on this connection. -/
  | read (address : String) (bufLen : Nat)
deriving Repr, DecidableEq

/-- The network oracle: how the outside world answers each I/O primitive.
`dialOk` decides whether `net.DialTimeout` on an address succeeds;
`resolveOk`/`resolveAddr` model `net.ResolveTCPAddr` failure and the
resolved `tcpAddr.String()`; `predictorPredict` is the string returned by
a given predictor instance's `Predict`; `read20` is the outcome of the
20-byte `conn.Read` in `getMySQLVersion` (`none` = error, `some s` = the
buffer contents decoded as text). -/
structure Network where
  dialOk : String → Bool
  resolveOk : String → Bool
  resolveAddr : String → String
  predictorPredict : Nat → String → String
  read20 : String → Option String

/-- Probe `IsOpen`: dial `host:port`; failure means closed, success is
immediately closed and reported open. -/
def IsOpen (env : Network) (ps : PortScanner) (port : Int) : Bool × List NetEvent :=
  let address := ps.hostPort port
  (env.dialOk address, [NetEvent.dial address])

/-- Connection helper `openConn`: resolve the address as TCP4, then dial the resolved
address with the configured timeout.  On success returns the resolved
address standing for the connection. -/
def openConn (env : Network) (ps : PortScanner) (host : String) :
    Option String × List NetEvent :=
  if env.resolveOk host then
    let addr := env.resolveAddr host
    if env.dialOk addr then (some addr, [NetEvent.resolve host, NetEvent.dial addr])
    else (none, [NetEvent.resolve host, NetEvent.dial addr])
  else (none, [NetEvent.resolve host])

/-- The loop body of `PredictUsingPredictor` over the remaining predictor
list: a failed connection attempt skips to the next predictor, a
non-empty `Predict` result is returned at once, an empty result advances
to the next predictor, and `UNKNOWN` is returned when the list is
exhausted. -/
def predictChain (env : Network) (ps : PortScanner) (host : String) :
    List Nat → String × List NetEvent
  | [] => (UNKNOWN, [])
  | r :: rest =>
    match (openConn env ps host).1 with
    | none =>
      let next := predictChain env ps host rest
      (next.1, (openConn env ps host).2 ++ next.2)
    | some _ =>
      let result := env.predictorPredict r host
      if result.length > 0 then
        (result, (openConn env ps host).2 ++ [NetEvent.predictorProbe r host])
      else
        let next := predictChain env ps host rest
        (next.1, (openConn env ps host).2 ++ [NetEvent.predictorProbe r host] ++ next.2)

/-- Dispatch `PredictUsingPredictor`: run the chain over the registered predictors
in registration order. -/
def PredictUsingPredictor (env : Network) (ps : PortScanner) (host : String) :
    String × List NetEvent :=
  predictChain env ps host ps.predictors

/-- Follow-up `getMySQLVersion`: open a connection to `host:port`; on failure return
`assumed` unchanged; on success set a 3-second deadline, read into a
20-byte buffer, and on a successful read append `" version: "` plus the
buffer contents, otherwise return `assumed` unchanged. -/
def getMySQLVersion (env : Network) (ps : PortScanner) (port : Int) (assumed : String) :
    String × List NetEvent :=
  match (openConn env ps (ps.hostPort port)).1 with
  | none => (assumed, (openConn env ps (ps.hostPort port)).2)
  | some addr =>
    match env.read20 addr with
    | some bytes =>
      (assumed ++ " version: " ++ bytes,
        (openConn env ps (ps.hostPort port)).2 ++ [NetEvent.setDeadline 3, NetEvent.read addr 20])
    | none =>
      (assumed,
        (openConn env ps (ps.hostPort port)).2 ++ [NetEvent.setDeadline 3, NetEvent.read addr 20])

/-- Policy `DescribePort`: the identification policy.  With `usePredictor` off,
return the table lookup.  Otherwise HTTP ports go straight to the
predictor chain; other ports take the table guess, fall through to the
chain when the guess is `UNKNOWN`, and run the MySQL follow-up when the
guess is `"MySQL"`. -/
def DescribePort (env : Network) (ps : PortScanner) (port : Int) :
    String × List NetEvent :=
  if !ps.usePredictor then (predictPort port, [])
  else if IsHttp port then PredictUsingPredictor env ps (ps.hostPort port)
  else
    let assumed := predictPort port
    let base :=
      if assumed == UNKNOWN then PredictUsingPredictor env ps (ps.hostPort port)
      else (assumed, ([] : List NetEvent))
    if assumed == "MySQL" then
      let follow := getMySQLVersion env ps port assumed
      (follow.1, base.2 ++ follow.2)
    else base

/-- The ascending list of ports enumerated by
`for port := start; port <= stop; port++` — empty when `start > stop`. -/
def rangePorts (start stop : Int) : List Int :=
  (List.range (stop + 1 - start).toNat).map (fun i : Nat => start + (i : Int))

/-- A snapshot of the concurrent state of `GetOpenedPorts`:
`pending` are ports the main loop has not yet submitted (in ascending
order), `sem` is the number of occupied slots of the buffered channel
`sem`, `inflight` are ports whose goroutine is running (it holds a
semaphore slot until its final `<-sem`), `results` is the `openPorts`
accumulator, `probed` are ports whose goroutine has finished. -/
structure ScanState where
  pending : List Int
  sem : Nat
  inflight : List Int
  results : List Int
  probed : List Int
deriving Repr, DecidableEq

/-- One step of the concurrent execution of `GetOpenedPorts`:
`submit` is the main loop sending on `sem` (possible only while the
buffered channel of capacity `threads` has room) and spawning the
goroutine for the next port; `finish` is a running goroutine completing:
it probes its port, appends it to `openPorts` under the mutex when open,
and releases its semaphore slot.  `isOp` is the probe outcome oracle. -/
inductive ScanStep (threads : Int) (isOp : Int → Bool) : ScanState → ScanState → Prop where
  | submit (p : Int) (rest : List Int) (s : ScanState)
      (hp : s.pending = p :: rest) (hsem : (s.sem : Int) < threads) :
      ScanStep threads isOp s
        { pending := rest
          sem := s.sem + 1
          inflight := p :: s.inflight
          results := s.results
          probed := s.probed }
  | finish (p : Int) (l1 l2 : List Int) (s : ScanState)
      (hp : s.inflight = l1 ++ p :: l2) :
      ScanStep threads isOp s
        { pending := s.pending
          sem := s.sem - 1
          inflight := l1 ++ l2
          results := if isOp p then s.results ++ [p] else s.results
          probed := s.probed ++ [p] }

/-- The state at the entry of `GetOpenedPorts start stop`: all ports of
the range pending, empty channel, no goroutines, empty accumulator. -/
def initState (start stop : Int) : ScanState :=
  { pending := rangePorts start stop
    sem := 0
    inflight := []
    results := []
    probed := [] }

/-- States reachable during an execution of `GetOpenedPorts start stop`. -/
def Reachable (threads : Int) (isOp : Int → Bool) (start stop : Int) (s : ScanState) : Prop :=
  Relation.ReflTransGen (ScanStep threads isOp) (initState start stop) s

/-- Predicate for when `GetOpenedPorts` returns (after `wg.Wait()`) exactly in the states
where every port has been submitted and every goroutine has finished. -/
def Returned (s : ScanState) : Prop :=
  s.pending = [] ∧ s.inflight = []

/-- Execution invariant of the scan loop: the ports are partitioned among
pending, in-flight and probed; the semaphore counts exactly the in-flight
goroutines; every recorded open port has been probed; the accumulator has
no duplicates. -/
def ScanInv (start stop : Int) (s : ScanState) : Prop :=
  (s.pending ++ s.inflight ++ s.probed).Perm (rangePorts start stop) ∧
  s.sem = s.inflight.length ∧
  (∀ p ∈ s.results, p ∈ s.probed) ∧
  s.results.Nodup

lemma rangePorts_nodup (start stop : Int) : (rangePorts start stop).Nodup := by
  unfold rangePorts
  refine List.Nodup.map ?_ (List.nodup_range _)
  intro a b h
  simp only [] at h
  omega

lemma mem_rangePorts {start stop p : Int} :
    p ∈ rangePorts start stop ↔ start ≤ p ∧ p ≤ stop := by
  unfold rangePorts
  simp only [List.mem_map, List.mem_range]
  constructor
  · rintro ⟨i, hi, rfl⟩
    omega
  · rintro ⟨h1, h2⟩
    exact ⟨(p - start).toNat, by omega, by omega⟩

lemma scanInv_init (start stop : Int) : ScanInv start stop (initState start stop) := by
  refine ⟨by simp [initState], rfl, by simp [initState], by simp [initState]⟩

lemma scanInv_step {threads : Int} {isOp : Int → Bool} {start stop : Int}
    {s s' : ScanState} (hinv : ScanInv start stop s)
    (hstep : ScanStep threads isOp s s') : ScanInv start stop s' := by
  obtain ⟨hperm, hsem, hres, hnd⟩ := hinv
  cases hstep with
  | submit p rest s hp hs =>
    refine ⟨?_, by simp [hsem], fun q hq => hres q hq, hnd⟩
    rw [hp] at hperm
    rw [List.perm_iff_count] at hperm ⊢
    intro a
    have h := hperm a
    by_cases hap : a = p
    · subst hap
      simp only [List.count_append, List.count_cons_self] at h ⊢
      omega
    · simp only [List.count_append, List.count_cons_of_ne hap] at h ⊢
      omega
  | finish p l1 l2 s hp =>
    rw [hp] at hperm
    have hperm' : (s.pending ++ (l1 ++ l2) ++ (s.probed ++ [p])).Perm
        (rangePorts start stop) := by
      rw [List.perm_iff_count] at hperm ⊢
      intro a
      have h := hperm a
      by_cases hap : a = p
      · subst hap
        simp only [List.count_append, List.count_cons_self, List.count_singleton] at h ⊢
        simp at h ⊢
        omega
      · simp only [List.count_append, List.count_cons_of_ne hap] at h ⊢
        simp [hap] at h ⊢
        omega
    have hnodupAll : (s.pending ++ (l1 ++ p :: l2) ++ s.probed).Nodup :=
      hperm.nodup_iff.mpr (rangePorts_nodup start stop)
    have hpmem : p ∈ s.pending ++ (l1 ++ p :: l2) := by simp
    have hdisj : p ∉ s.probed := by
      intro hmem
      exact (List.nodup_append.mp hnodupAll).2.2 hpmem hmem
    have hsem' : s.sem - 1 = (l1 ++ l2).length := by
      rw [hsem, hp]
      simp
    refine ⟨hperm', hsem', ?_, ?_⟩
    · intro q hq
      by_cases hopen : isOp p
      · simp only [hopen, if_true, List.mem_append, List.mem_singleton] at hq
        rcases hq with hq | hq
        · exact List.mem_append_left _ (hres q hq)
        · simp [hq]
      · simp only [hopen, if_false] at hq
        exact List.mem_append_left _ (hres q hq)
    · by_cases hopen : isOp p
      · simp only [hopen, if_true]
        refine List.Nodup.append hnd (List.nodup_singleton p) ?_
        intro q hq1 hq2
        simp only [List.mem_singleton] at hq2
        subst hq2
        exact hdisj (hres q hq1)
      · simpa [hopen] using hnd

lemma scanInv_reachable {threads : Int} {isOp : Int → Bool} {start stop : Int}
    {s : ScanState} (h : Reachable threads isOp start stop s) :
    ScanInv start stop s := by
  induction h with
  | refl => exact scanInv_init start stop
  | tail _ hstep ih => exact scanInv_step ih hstep

lemma sem_le_threads {threads : Int} {isOp : Int → Bool} {start stop : Int}
    {s : ScanState} (hth : 0 ≤ threads)
    (h : Reachable threads isOp start stop s) : (s.sem : Int) ≤ threads := by
  induction h with
  | refl => simpa [initState] using hth
  | tail _ hstep ih =>
    cases hstep with
    | submit p rest t hp hs =>
      simp only [ScanState.sem]
      omega
    | finish p l1 l2 t hp =>
      simp only [ScanState.sem]
      omega

/-- A generic lookup fact: when the key is absent from an association
list, `List.lookup` returns `none`. -/
lemma lookup_eq_none_of_not_mem_keys {α β : Type} [BEq α] [LawfulBEq α]
    (l : List (α × β)) (a : α) (h : a ∉ l.map Prod.fst) : l.lookup a = none := by
  induction l with
  | nil => rfl
  | cons hd tl ih =>
    simp only [List.map_cons, List.mem_cons] at h
    push_neg at h
    obtain ⟨h1, h2⟩ := h
    obtain ⟨k, b⟩ := hd
    simp only [List.lookup]
    have hbeq : (a == k) = false := by
      simp only [beq_eq_false_iff_ne, ne_eq]
      exact h1
    rw [hbeq]
    exact ih h2

/-! Concrete fixtures used by witnesses and counterexamples. -/

/-- A scanner fresh from the constructor (predictor flag on). -/
def psW : PortScanner := NewPortScanner "localhost" 1000 4

/-- The same scanner with the predictor flag toggled off. -/
def psOff : PortScanner := TogglePredictor psW false

/-- A dead network: nothing resolves, nothing dials, predictors see
nothing, reads fail. -/
def envW : Network :=
  { dialOk := fun _ => false
    resolveOk := fun _ => false
    resolveAddr := fun s => s
    predictorPredict := fun _ _ => ""
    read20 := fun _ => none }

/-- A live network whose 20-byte read hands back a version banner, used to
exercise the MySQL follow-up. -/
def envMy : Network :=
  { dialOk := fun _ => true
    resolveOk := fun _ => true
    resolveAddr := fun s => s
    predictorPredict := fun _ _ => ""
    read20 := fun _ => some "5.7.44-log" }

/-- The fresh scanner with its thread count set to 1. -/
def psOne : PortScanner := SetThreads psW 1

/-- The probe outcome of the scan goroutines on the live network: every
port dials successfully, hence reports open. -/
def isOpW : Int → Bool := fun p => (IsOpen envMy psOne p).1

/-- The state after submitting and finishing port 1 in a scan of the
range `[1, 1]` with one thread. -/
def scanFinalW : ScanState :=
  { pending := [], sem := 0, inflight := [], results := [1], probed := [1] }

/-- The intermediate state of that run while port 1 is in flight. -/
def scanMidW : ScanState :=
  { pending := [], sem := 1, inflight := [1], results := [], probed := [] }

lemma scanMidW_reachable : Reachable psOne.threads isOpW 1 1 scanMidW :=
  Relation.ReflTransGen.tail Relation.ReflTransGen.refl
    (ScanStep.submit 1 [] (initState 1 1) (by decide) (by decide))

lemma scanFinalW_reachable : Reachable psOne.threads isOpW 1 1 scanFinalW :=
  Relation.ReflTransGen.tail scanMidW_reachable
    (ScanStep.finish 1 [] [] scanMidW (by decide))

/-! Claim theorems. -/

/-- C1: for every port, if the predictor-enabled flag is false,
`DescribePort` returns exactly the Known-Port Table lookup (the unknown
sentinel when absent) paired with an empty network trace — no predictor
probe and no MySQL follow-up connection. -/
theorem C1_describe_without_predictor (env : Network) (ps : PortScanner) (port : Int)
    (h : ps.usePredictor = false) :
    DescribePort env ps port = (predictPort port, []) := by
  simp [DescribePort, h]

/-- Witness for C1 at a concrete scanner and port. -/
theorem C1_witness :
    DescribePort envW psOff 22 = (predictPort 22, []) :=
  C1_describe_without_predictor envW psOff 22 rfl

/-- C7: the Known-Port Table lookup returns the spec's verbatim label for
every listed port and the unknown sentinel for every other port.  As a
Lean function of the port alone it is pure and deterministic by
construction. -/
theorem C7_table_lookup :
    (predictPort 21 = "FTP" ∧ predictPort 22 = "SSH" ∧ predictPort 23 = "Telnet" ∧
     predictPort 25 = "SMTP" ∧ predictPort 53 = "DNS" ∧
     predictPort 66 = "Oracle SQL*NET?" ∧ predictPort 69 = "TFTP" ∧
     predictPort 80 = "HTTP" ∧ predictPort 88 = "Kerberos" ∧
     predictPort 109 = "POP2" ∧ predictPort 110 = "POP3" ∧
     predictPort 118 = "SQL Service?" ∧ predictPort 123 = "NTP" ∧
     predictPort 137 = "NetBIOS" ∧ predictPort 139 = "NetBIOS" ∧
     predictPort 143 = "IMAP" ∧ predictPort 150 = "SQL-Net?" ∧
     predictPort 194 = "IRC" ∧ predictPort 443 = "HTTPS" ∧
     predictPort 445 = "Samba" ∧ predictPort 465 = "SMTP over SSL" ∧
     predictPort 554 = "RTSP" ∧ predictPort 5800 = "VNC Remote Desktop" ∧
     predictPort 631 = "CUPS" ∧ predictPort 993 = "IMAP over SSL" ∧
     predictPort 995 = "POP3 over SSL" ∧ predictPort 1433 = "Microsoft SQL Server" ∧
     predictPort 1434 = "Microsoft SQL Monitor" ∧ predictPort 3306 = "MySQL" ∧
     predictPort 3389 = "Remote Desktop Protocol (RDP)" ∧
     predictPort 3396 = "Novell NDPS Printer Agent" ∧
     predictPort 3535 = "SMTP (Alternate)" ∧ predictPort 5432 = "PostgreSQL" ∧
     predictPort 6379 = "Redis" ∧ predictPort 8080 = "HTTP Alternate" ∧
     predictPort 9160 = "Cassandra" ∧ predictPort 9200 = "Elasticsearch" ∧
     predictPort 11211 = "Memcached" ∧ predictPort 27017 = "MongoDB" ∧
     predictPort 28017 = "MongoDB Web Admin") ∧
    (∀ port : Int, port ∉ KNOWN_PORTS.map Prod.fst → predictPort port = UNKNOWN) := by
  constructor
  · decide
  · intro port h
    unfold predictPort
    rw [lookup_eq_none_of_not_mem_keys KNOWN_PORTS port h]

/-- Witness for C7: a port absent from the table yields the sentinel. -/
theorem C7_witness : predictPort 12345 = UNKNOWN :=
  C7_table_lookup.2 12345 (by decide)

/-- C8: predictor registration is idempotent by reference identity and
append-only: registering an already-present instance is a no-op (and with
a duplicate-free registry the instance keeps exactly one entry), and
registering a new instance appends it at the end, touching nothing else. -/
theorem C8_register_idempotent_append (ps : PortScanner) (predictor : Nat) :
    (predictor ∈ ps.predictors → RegisterPredictor ps predictor = ps) ∧
    (predictor ∉ ps.predictors →
      (RegisterPredictor ps predictor).predictors = ps.predictors ++ [predictor] ∧
      (RegisterPredictor ps predictor).host = ps.host ∧
      (RegisterPredictor ps predictor).timeout = ps.timeout ∧
      (RegisterPredictor ps predictor).threads = ps.threads ∧
      (RegisterPredictor ps predictor).usePredictor = ps.usePredictor) ∧
    RegisterPredictor (RegisterPredictor ps predictor) predictor =
      RegisterPredictor ps predictor ∧
    (ps.predictors.Nodup →
      ((RegisterPredictor ps predictor).predictors.count predictor = 1)) := by
  refine ⟨fun h => by simp [RegisterPredictor, h], fun h => ?_, ?_, fun hnd => ?_⟩
  · simp [RegisterPredictor, h]
  · by_cases h : predictor ∈ ps.predictors
    · simp [RegisterPredictor, h]
    · have h2 : predictor ∈ ps.predictors ++ [predictor] := by simp
      simp [RegisterPredictor, h, h2]
  · by_cases h : predictor ∈ ps.predictors
    · simp [RegisterPredictor, h, List.count_eq_one_of_mem hnd h]
    · have : ps.predictors.count predictor = 0 := List.count_eq_zero.mpr h
      simp [RegisterPredictor, h, this]

/-- Witness for C8: registering an already-registered default predictor
leaves the scanner unchanged. -/
theorem C8_witness : RegisterPredictor psW apacheRef = psW :=
  (C8_register_idempotent_append psW apacheRef).1 (by decide)

/-- C9 counterexample: a scanner constructed with concurrency limit 1
accepts `SetThreads 0`, after which the limit is 0 — the "concurrency
limit ≥ 1" invariant is not preserved by `SetThreads` with an arbitrary
integer argument. -/
theorem C9_counterexample :
    (SetThreads (NewPortScanner "localhost" 1000 1) 0).threads = 0 ∧
    ¬ (1 ≤ (SetThreads (NewPortScanner "localhost" 1000 1) 0).threads) := by
  decide

/-- C9 (amended): the code performs no validation — `threads` is exactly
the last value supplied.  Hence the "≥ 1" invariant holds after
construction exactly when the constructor argument is ≥ 1, is preserved
by `TogglePredictor`, `SetTimeout` and `RegisterPredictor`, and is
preserved by `SetThreads` exactly when its argument is ≥ 1. -/
theorem C9_threads_passthrough (host : String) (timeout threads : Int)
    (ps : PortScanner) (b : Bool) (t n : Int) (r : Nat) :
    (NewPortScanner host timeout threads).threads = threads ∧
    (TogglePredictor ps b).threads = ps.threads ∧
    (SetTimeout ps t).threads = ps.threads ∧
    (RegisterPredictor ps r).threads = ps.threads ∧
    (SetThreads ps n).threads = n ∧
    (1 ≤ threads → 1 ≤ (NewPortScanner host timeout threads).threads) ∧
    (1 ≤ n → 1 ≤ (SetThreads ps n).threads) := by
  refine ⟨rfl, rfl, rfl, ?_, rfl, fun h => h, fun h => h⟩
  by_cases h : r ∈ ps.predictors <;> simp [RegisterPredictor, h]

/-- Witness for C9's amended statement: setting a positive thread count
keeps the limit positive. -/
theorem C9_witness : 1 ≤ (SetThreads psW 5).threads :=
  (C9_threads_passthrough "localhost" 1000 4 psW true 1000 5 apacheRef).2.2.2.2.2.2
    (by decide)

/-- C2 counterexample: with the predictor flag toggled off, `DescribePort`
on port 80 returns the Known-Port Table entry "HTTP" with no network
trace, not the predictor chain's result (which here would be the unknown
sentinel) — so the dispatch is not unconditional. -/
theorem C2_counterexample :
    DescribePort envW psOff 80 = ("HTTP", []) ∧
    (PredictUsingPredictor envW psOff (psOff.hostPort 80)).1 = UNKNOWN ∧
    ("HTTP" : String) ≠ UNKNOWN := by
  refine ⟨?_, ?_, by decide⟩ <;> decide

/-- C2 (amended): when the predictor-enabled flag is true, `DescribePort`
on port 80 or 8080 dispatches to the Predictor chain and returns exactly
its result, bypassing the table entries; and `IsHttp` holds for no port
other than 80 and 8080. -/
theorem C2_http_dispatch (env : Network) (ps : PortScanner) (port : Int)
    (hu : ps.usePredictor = true) (hp : port = 80 ∨ port = 8080) :
    DescribePort env ps port = PredictUsingPredictor env ps (ps.hostPort port) ∧
    (∀ q : Int, IsHttp q = true ↔ (q = 80 ∨ q = 8080)) := by
  constructor
  · have hhttp : IsHttp port = true := by
      rcases hp with rfl | rfl <;> decide
    simp [DescribePort, hu, hhttp]
  · intro q
    simp [IsHttp]

/-- Witness for C2's amended statement at port 80 on a fresh scanner. -/
theorem C2_witness :
    DescribePort envW psW 80 = PredictUsingPredictor envW psW (psW.hostPort 80) :=
  (C2_http_dispatch envW psW 80 rfl (Or.inl rfl)).1

/-- C3: with the predictor flag on, a non-HTTP port whose table guess is
the literal "MySQL" takes the follow-up: `DescribePort` returns exactly
`getMySQLVersion`, which opens one connection (the trace is the connect
events plus, on success, a 3-second deadline and one 20-byte-buffer
read); a successful read yields the guess with " version: " and the bytes
appended, any connect or read failure yields the unadorned guess. -/
theorem C3_mysql_followup (env : Network) (ps : PortScanner) (port : Int)
    (hu : ps.usePredictor = true) (hh : IsHttp port = false)
    (hg : predictPort port = "MySQL") :
    DescribePort env ps port = getMySQLVersion env ps port "MySQL" ∧
    (getMySQLVersion env ps port "MySQL").1 =
      (match (openConn env ps (ps.hostPort port)).1 with
       | none => "MySQL"
       | some addr =>
         match env.read20 addr with
         | some bytes => "MySQL" ++ " version: " ++ bytes
         | none => "MySQL") ∧
    ((openConn env ps (ps.hostPort port)).1 = none →
      (getMySQLVersion env ps port "MySQL").2 = (openConn env ps (ps.hostPort port)).2) ∧
    (∀ addr, (openConn env ps (ps.hostPort port)).1 = some addr →
      (getMySQLVersion env ps port "MySQL").2 =
        (openConn env ps (ps.hostPort port)).2 ++
          [NetEvent.setDeadline 3, NetEvent.read addr 20]) := by
  have hmy : (predictPort port == "MySQL") = true := by
    rw [hg]; decide
  have hun : (predictPort port == UNKNOWN) = false := by
    rw [hg]; decide
  have hne : ("MySQL" : String) ≠ UNKNOWN := by decide
  refine ⟨?_, ?_, ?_, ?_⟩
  · simp [DescribePort, hu, hh, hmy, hun, hg, hne]
  · unfold getMySQLVersion
    rcases hopen : (openConn env ps (ps.hostPort port)).1 with _ | addr
    · simp
    · rcases hread : env.read20 addr with _ | bytes <;> simp [hread]
  · intro hopen
    unfold getMySQLVersion
    rw [hopen]
  · intro addr hopen
    unfold getMySQLVersion
    rw [hopen]
    rcases hread : env.read20 addr with _ | bytes <;> simp [hread]

/-- Witness for C3: on a live network the follow-up appends the banner. -/
theorem C3_witness :
    DescribePort envMy psW 3306 = getMySQLVersion envMy psW 3306 "MySQL" :=
  (C3_mysql_followup envMy psW 3306 rfl (by decide) (by decide)).1

/-- C6: with the predictor flag on, a non-HTTP port whose table guess is
the unknown sentinel is handed to the Predictor chain: `DescribePort`
returns exactly the chain's result over the registered predictors in
registration order; within the chain a failed connection skips to the
next predictor, a non-empty result is returned at once, an empty result
advances, and the unknown sentinel is returned when the predictors are
exhausted. -/
theorem C6_unknown_falls_to_chain (env : Network) (ps : PortScanner) (port : Int)
    (hu : ps.usePredictor = true) (hh : IsHttp port = false)
    (hg : predictPort port = UNKNOWN) :
    DescribePort env ps port = PredictUsingPredictor env ps (ps.hostPort port) ∧
    PredictUsingPredictor env ps (ps.hostPort port) =
      predictChain env ps (ps.hostPort port) ps.predictors ∧
    (∀ host : String, (predictChain env ps host []).1 = UNKNOWN) ∧
    (∀ (host : String) (r : Nat) (rest : List Nat),
      (openConn env ps host).1 = none →
      (predictChain env ps host (r :: rest)).1 = (predictChain env ps host rest).1) ∧
    (∀ (host : String) (r : Nat) (rest : List Nat) (addr : String),
      (openConn env ps host).1 = some addr →
      (env.predictorPredict r host).length > 0 →
      (predictChain env ps host (r :: rest)).1 = env.predictorPredict r host) ∧
    (∀ (host : String) (r : Nat) (rest : List Nat) (addr : String),
      (openConn env ps host).1 = some addr →
      ¬ (env.predictorPredict r host).length > 0 →
      (predictChain env ps host (r :: rest)).1 = (predictChain env ps host rest).1) := by
  have hun : (predictPort port == UNKNOWN) = true := by
    rw [hg]; decide
  have hmy : (predictPort port == "MySQL") = false := by
    rw [hg]; decide
  refine ⟨?_, rfl, fun host => rfl, ?_, ?_, ?_⟩
  · simp [DescribePort, hu, hh, hun, hmy]
  · intro host r rest hopen
    conv_lhs => rw [predictChain.eq_def]
    simp [hopen]
  · intro host r rest addr hopen hlen
    conv_lhs => rw [predictChain.eq_def]
    simp [hopen, hlen]
  · intro host r rest addr hopen hlen
    conv_lhs => rw [predictChain.eq_def]
    simp [hopen, hlen]

/-- Witness for C6 at an unlisted port on a fresh scanner. -/
theorem C6_witness :
    DescribePort envW psW 4444 = PredictUsingPredictor envW psW (psW.hostPort 4444) :=
  (C6_unknown_falls_to_chain envW psW 4444 rfl (by decide) (by decide)).1

/-- C4: in any execution of the scan loop, once `GetOpenedPorts` may
return (all ports submitted, all goroutines finished) the accumulated
result set contains only ports of the inclusive range, contains no
duplicates, and every port of the range has been probed. -/
theorem C4_scan_result_set (env : Network) (ps : PortScanner) (start stop : Int)
    (s : ScanState)
    (hr : Reachable ps.threads (fun p => (IsOpen env ps p).1) start stop s)
    (hret : Returned s) :
    (∀ p ∈ s.results, start ≤ p ∧ p ≤ stop) ∧
    s.results.Nodup ∧
    (∀ p : Int, start ≤ p → p ≤ stop → p ∈ s.probed) := by
  obtain ⟨hperm, _, hres, hnd⟩ := scanInv_reachable hr
  obtain ⟨hpend, hinf⟩ := hret
  rw [hpend, hinf] at hperm
  simp only [List.nil_append] at hperm
  refine ⟨?_, hnd, ?_⟩
  · intro p hp
    have : p ∈ rangePorts start stop := hperm.mem_iff.mp (hres p hp)
    exact mem_rangePorts.mp this
  · intro p h1 h2
    exact hperm.mem_iff.mpr (mem_rangePorts.mpr ⟨h1, h2⟩)

/-- Witness for C4 on a completed one-port scan of the range `[1, 1]`. -/
theorem C4_witness : scanFinalW.results.Nodup :=
  (C4_scan_result_set envMy psOne 1 1 scanFinalW scanFinalW_reachable ⟨rfl, rfl⟩).2.1

/-- C5: in every reachable state of the scan loop the number of in-flight
probes never exceeds the configured concurrency limit: the main loop's
send on the capacity-`threads` channel blocks once `threads` slots are
held, and a slot is released only when a probe finishes. -/
theorem C5_concurrency_bound (env : Network) (ps : PortScanner) (start stop : Int)
    (s : ScanState) (hth : 0 ≤ ps.threads)
    (hr : Reachable ps.threads (fun p => (IsOpen env ps p).1) start stop s) :
    (s.inflight.length : Int) ≤ ps.threads := by
  obtain ⟨_, hsem, _, _⟩ := scanInv_reachable hr
  have := sem_le_threads hth hr
  omega

/-- Witness for C5: with one thread, the state holding port 1 in flight
respects the bound. -/
theorem C5_witness : ((scanMidW.inflight.length : Int)) ≤ psOne.threads :=
  C5_concurrency_bound envMy psOne 1 1 scanMidW (by decide) scanMidW_reachable

/-- C10: when `start > stop` the loop body never runs — the only
reachable state is the initial one, so no port is probed and the result
set is empty. -/
theorem C10_empty_range (env : Network) (ps : PortScanner) (start stop : Int)
    (h : stop < start) (s : ScanState)
    (hr : Reachable ps.threads (fun p => (IsOpen env ps p).1) start stop s) :
    s = initState start stop ∧ s.results = [] ∧ s.probed = [] := by
  have hrange : rangePorts start stop = [] := by
    unfold rangePorts
    have : (stop + 1 - start).toNat = 0 := by omega
    rw [this]
    rfl
  have hinit : ∀ t : ScanState,
      Reachable ps.threads (fun p => (IsOpen env ps p).1) start stop t →
      t = initState start stop := by
    intro t ht
    induction ht with
    | refl => rfl
    | tail hb hstep ih =>
      subst ih
      cases hstep with
      | submit p rest u hp hsem =>
        rw [show (initState start stop).pending = rangePorts start stop from rfl,
          hrange] at hp
        exact absurd hp (List.noConfusion)
      | finish p l1 l2 u hp =>
        rw [show (initState start stop).inflight = ([] : List Int) from rfl] at hp
        exact absurd hp.symm (List.append_ne_nil_of_right_ne_nil l1 (by simp))
  have hs := hinit s hr
  exact ⟨hs, by rw [hs]; rfl, by rw [hs]; rfl⟩

/-- Witness for C10 on the empty range `[5, 3]`. -/
theorem C10_witness :
    (initState 5 3).results = [] ∧ (initState 5 3).probed = [] :=
  (C10_empty_range envMy psOne 5 3 (by decide) (initState 5 3)
    Relation.ReflTransGen.refl).2

end PortScannerGo
